import Mathlib

/-!
Verification development for the PWM fan controller
(src/pwm_fan_controller.ino).

The embedding below translates the controller's core, per the source:

* the per-tick gesture classifier `poll_input_signals` and the
  debounce/event resolver `process_buttons` (one button at a time, since
  the per-button arrays are independent);
* the power/speed state machine: `process_onoff_click`,
  `process_onoff_hold`, `process_speed_up_click`,
  `process_speed_down_click`, `speed_up_fan_speed`,
  `slow_down_fan_speed`, `set_max_fan_speed`, `process_turbo_request`;
* the rate gates of `process_fan_schedule` and
  `process_display_schedule`.

All millisecond clock values are Arduino `unsigned long`s, i.e. natural
numbers reduced modulo 2^32; `elapsedGate` is the literal comparison
`mark + interval < now` the source uses everywhere.
-/

/-! ### Constants from the source -/

def ULONG_MOD : Nat := 4294967296

def DEBOUNCE_DELAY_MILLS : Nat := 40

def BUTTON_HOLD_FOR_TURBO_DELAY_IN_MILLIS : Nat := 2000

def TURBO_TEXT_DISPLAY_TIME_IN_MILLIS : Nat := 500

def DISPLAY_REFRESH_RATE_MILLIS : Nat := 100

def FAN_REFRESH_RATE_MILLIS : Nat := 10

def SYSTEM_ON : Nat := 0

def SYSTEM_OFF : Nat := 1

def TURBO_REQUESTED : Nat := 2

def TURBO_ON : Nat := 3

def OFF_FAN_SPEED : Nat := 0

def MIN_FAN_SPEED : Nat := 1

def MAX_PWM_SPEED : Nat := 9

def MAX_FAN_SPEED : Nat := 10

def INCREMENT_FAN_SPEED : Nat := 1

def DEFAULT_FAN_SPEED : Nat := MIN_FAN_SPEED + INCREMENT_FAN_SPEED

/-- The elapsed-time comparison used throughout the source:
`mark + interval < millis()` on `unsigned long`s, i.e. computed and
compared modulo 2^32.  `now` is the full (unwrapped) tick time; the
hardware counter delivers `now % 2^32`. -/
def elapsedGate (mark interval now : Nat) : Bool :=
  (mark + interval) % ULONG_MOD < now % ULONG_MOD

/-! ### Gesture classifier (`poll_input_signals`) -/

/-- The four per-tick classifications of the source's button enum. -/
inductive BClass where
  | notPressed
  | isPressed
  | isHeld
  | wasReleased
deriving DecidableEq

/-- `poll_input_signals` for one button: the classification computed from
the previous raw read and the current raw read (`true` = contact
pressed), in the source's branch order. -/
def classify (last cur : Bool) : BClass :=
  if last = false ∧ cur = true then BClass.isPressed
  else if last = true ∧ cur = true then BClass.isHeld
  else if last = true ∧ cur = false then BClass.wasReleased
  else BClass.notPressed

/-! ### Debounce and event resolver (`process_buttons`) -/

/-- A logical event emitted by `process_buttons` for one button:
`process_button_click` or `process_button_hold` being invoked. -/
inductive BEvent where
  | click
  | hold
deriving DecidableEq

/-- Per-button mutable state of the resolver: `last_button_read[i]`,
`last_interaction_timestamp[i]`, and `last_button_state[i]`
(`processed = true` models `PROCESSED`). -/
structure BtnState where
  lastRead : Bool
  ts : Nat
  processed : Bool
deriving DecidableEq

/-- One control tick for one button: `poll_input_signals` followed by the
body of `process_buttons`' per-button loop.  `t` is the tick's `millis()`
value (unwrapped), `raw` the current debounced-input read.  Returns the
updated per-button state and the logical event dispatched this tick, if
any. -/
def buttonTick (s : BtnState) (t : Nat) (raw : Bool) : BtnState × Option BEvent :=
  let c := classify s.lastRead raw
  if c = BClass.isHeld ∧ elapsedGate s.ts BUTTON_HOLD_FOR_TURBO_DELAY_IN_MILLIS t = true then
    if s.processed then (⟨raw, t % ULONG_MOD, true⟩, none)
    else (⟨raw, t % ULONG_MOD, true⟩, some BEvent.hold)
  else if c = BClass.notPressed ∧ elapsedGate s.ts DEBOUNCE_DELAY_MILLS t = true then
    if s.processed then (⟨raw, t % ULONG_MOD, true⟩, none)
    else (⟨raw, t % ULONG_MOD, true⟩, some BEvent.click)
  else if c = BClass.notPressed then
    (⟨raw, t % ULONG_MOD, false⟩, none)
  else
    (⟨raw, s.ts, s.processed⟩, none)

/-- Run the resolver over a trace of `(millis, raw)` samples from a given
state, collecting the per-tick event outputs. -/
def runButtonAux (s : BtnState) : List (Nat × Bool) → BtnState × List (Option BEvent)
  | [] => (s, [])
  | (t, r) :: rest =>
      let p := buttonTick s t r
      let q := runButtonAux p.1 rest
      (q.1, p.2 :: q.2)

/-- The state of one button at the first call of `process_buttons`:
`last_button_read` is `false`, `last_interaction_timestamp` was just
initialized to `millis()` (the first tick's time), and
`last_button_state` is `NOT_PROCESSED`. -/
def initBtn (t0 : Nat) : BtnState :=
  ⟨false, t0 % ULONG_MOD, false⟩

/-- Run the resolver over a complete trace, starting from the source's
initial per-button state (timestamps initialized at the first tick). -/
def runButton (tr : List (Nat × Bool)) : List (Option BEvent) :=
  match tr with
  | [] => []
  | (t0, _) :: _ => (runButtonAux (initBtn t0) tr).2

/-! ### Trace predicates used in the theorems -/

/-- Tick times are nondecreasing, consecutive ticks are at most
`DEBOUNCE_DELAY_MILLS` apart, and every time is below 2^31 (so the
32-bit clock does not wrap over the trace). -/
def tickChain (tPrev : Nat) : List (Nat × Bool) → Bool
  | [] => true
  | (t, _) :: rest =>
      decide (tPrev ≤ t) && decide (t ≤ tPrev + DEBOUNCE_DELAY_MILLS) &&
        decide (t < 2147483648) && tickChain t rest

/-- No fresh press begins anywhere in the trace: no tick's classification
is `isPressed`, given the raw read preceding the trace. -/
def pressFree (last : Bool) : List (Nat × Bool) → Bool
  | [] => true
  | (_, r) :: rest => (last || !r) && pressFree r rest

/-- Resolver states from which, absent a fresh press and with ticks at
most one debounce window apart, no event can fire: either the
processed-flag is set, or the button is idle with its timestamp at the
previous tick's time. -/
def btnQuiet (tPrev : Nat) (s : BtnState) : Prop :=
  s.processed = true ∨
    (s.ts = tPrev % ULONG_MOD ∧ s.lastRead = false ∧ s.processed = false)

/-! ### Canonical 1 kHz press traces (for the debounce theorems) -/

/-- `n` idle (contact open) ticks at 1 ms spacing starting at time `a`. -/
def idleTicks (a : Nat) : Nat → List (Nat × Bool)
  | 0 => []
  | n + 1 => (a, false) :: idleTicks (a + 1) n

/-- `n` pressed (contact closed) ticks at 1 ms spacing starting at `a`. -/
def heldTicks (a : Nat) : Nat → List (Nat × Bool)
  | 0 => []
  | n + 1 => (a, true) :: heldTicks (a + 1) n

/-- A complete 1 kHz sampled trace: `pre` open ticks, then a press lasting
`d` milliseconds (`d` closed samples), then `post` open ticks. -/
def pressTrace (pre d post : Nat) : List (Nat × Bool) :=
  idleTicks 0 pre ++ heldTicks pre d ++ idleTicks (pre + d) post

/-! ### Power/speed state machine -/

/-- The shared mutable state owned by the power/speed state machine:
`onoff_state`, `user_fan_speed`, the static `save_fan_speed` of
`process_onoff_click` (`none` until that handler has run once, modelling
the deferred static initializer), `turbo_requested_by_user`, and the
static `turbo_request_displayed_timer` of `process_turbo_request`. -/
structure SysState where
  onoff : Nat
  user_fan_speed : Nat
  save_fan_speed : Option Nat
  turbo_requested_by_user : Bool
  turbo_timer : Nat
deriving DecidableEq

/-- The state right after `setup()` returns: `onoff_state = SYSTEM_OFF`,
`user_fan_speed` still at its global initializer `DEFAULT_FAN_SPEED`,
`save_fan_speed` not yet initialized, no turbo request pending, and the
turbo display timer initialized at time `t0`. -/
def initSys (t0 : Nat) : SysState :=
  ⟨SYSTEM_OFF, DEFAULT_FAN_SPEED, none, false, t0 % ULONG_MOD⟩

/-- `process_onoff_click`: toggle power.  Going On to Off saves the speed
and zeroes it; going Off to On restores the saved speed.  On the very
first call the static `save_fan_speed` initializes to the current
`user_fan_speed`. -/
def process_onoff_click (s : SysState) : SysState :=
  let sv := s.save_fan_speed.getD s.user_fan_speed
  if s.onoff ≠ SYSTEM_OFF then
    { s with onoff := SYSTEM_OFF,
             save_fan_speed := some s.user_fan_speed,
             user_fan_speed := OFF_FAN_SPEED }
  else
    { s with onoff := SYSTEM_ON,
             user_fan_speed := sv,
             save_fan_speed := some sv }

/-- `set_max_fan_speed`. -/
def set_max_fan_speed (s : SysState) : SysState :=
  { s with user_fan_speed := MAX_FAN_SPEED }

/-- `process_onoff_hold`: set turbo speed unless the system is off. -/
def process_onoff_hold (s : SysState) : SysState :=
  if s.onoff ≠ SYSTEM_OFF then set_max_fan_speed s else s

/-- `speed_up_fan_speed`: recover from 0, step up below the cap, or raise
the one-shot turbo request at the cap. -/
def speed_up_fan_speed (s : SysState) : SysState :=
  if s.user_fan_speed = OFF_FAN_SPEED then
    { s with user_fan_speed := MIN_FAN_SPEED }
  else if s.user_fan_speed < MAX_FAN_SPEED - INCREMENT_FAN_SPEED then
    { s with user_fan_speed := s.user_fan_speed + INCREMENT_FAN_SPEED }
  else
    { s with turbo_requested_by_user := true }

/-- `slow_down_fan_speed`: step down, flooring at `MIN_FAN_SPEED`. -/
def slow_down_fan_speed (s : SysState) : SysState :=
  if s.user_fan_speed ≥ MIN_FAN_SPEED + INCREMENT_FAN_SPEED then
    { s with user_fan_speed := s.user_fan_speed - INCREMENT_FAN_SPEED }
  else s

/-- `process_speed_up_click`. -/
def process_speed_up_click (s : SysState) : SysState :=
  if s.onoff ≠ SYSTEM_OFF then speed_up_fan_speed s else s

/-- `process_speed_down_click`. -/
def process_speed_down_click (s : SysState) : SysState :=
  if s.onoff ≠ SYSTEM_OFF then slow_down_fan_speed s else s

/-- `process_turbo_request` at tick time `t`: consume the one-shot turbo
request (entering `TURBO_REQUESTED` and starting the display timer),
then exit back to `SYSTEM_ON` once the prompt timer expires or turbo
speed is reached; the request flag is cleared unconditionally. -/
def process_turbo_request (s : SysState) (t : Nat) : SysState :=
  let s1 :=
    if s.user_fan_speed ≠ MAX_FAN_SPEED ∧ s.turbo_requested_by_user = true then
      { s with onoff := TURBO_REQUESTED, turbo_timer := t % ULONG_MOD }
    else s
  let exitReq :=
    s1.onoff = TURBO_REQUESTED ∧
      (elapsedGate s1.turbo_timer TURBO_TEXT_DISPLAY_TIME_IN_MILLIS t = true ∨
        s1.user_fan_speed = MAX_FAN_SPEED)
  let s2 := if exitReq then { s1 with onoff := SYSTEM_ON } else s1
  { s2 with turbo_requested_by_user := false }

/-- The logical events of one control tick, per button, in the order the
per-button loop dispatches them (`SPEED_UP_BUTTON`, `SPEED_DOWN_BUTTON`,
`ONOFF_TOGGLE_BUTTON`), plus the tick's `millis()` value. -/
structure TickIn where
  up : Option BEvent
  down : Option BEvent
  onoff : Option BEvent
  t : Nat
deriving DecidableEq

/-- Dispatch of the speed-up button's event (`process_button_click` /
`process_button_hold`; a hold of this button does nothing). -/
def applyUpEvent (s : SysState) : Option BEvent → SysState
  | some BEvent.click => process_speed_up_click s
  | some BEvent.hold => s
  | none => s

/-- Dispatch of the speed-down button's event (hold does nothing). -/
def applyDownEvent (s : SysState) : Option BEvent → SysState
  | some BEvent.click => process_speed_down_click s
  | some BEvent.hold => s
  | none => s

/-- Dispatch of the on/off toggle button's event. -/
def applyOnoffEvent (s : SysState) : Option BEvent → SysState
  | some BEvent.click => process_onoff_click s
  | some BEvent.hold => process_onoff_hold s
  | none => s

/-- One control tick of the state machine, as `process_button_schedule`
runs it: the three buttons' events in loop order, then
`process_turbo_request`. -/
def machineTick (s : SysState) (i : TickIn) : SysState :=
  process_turbo_request
    (applyOnoffEvent (applyDownEvent (applyUpEvent s i.up) i.down) i.onoff) i.t

/-- Run the state machine over a list of control ticks. -/
def runSys (s : SysState) : List TickIn → SysState
  | [] => s
  | i :: rest => runSys (machineTick s i) rest

/-- No tick in the list carries a power-toggle `Click`. -/
def noOnoffClick : List TickIn → Bool
  | [] => true
  | i :: rest => decide (i.onoff ≠ some BEvent.click) && noOnoffClick rest

/-- The claimed power-off invariant: whenever `onoff_state` is
`SYSTEM_OFF`, `user_fan_speed` is zero. -/
def offZero (s : SysState) : Prop :=
  s.onoff = SYSTEM_OFF → s.user_fan_speed = OFF_FAN_SPEED

/-- The boot shape: states indistinguishable (except for the turbo
timer) from the state right after `setup()`. -/
def initShape (s : SysState) : Prop :=
  s.onoff = SYSTEM_OFF ∧ s.user_fan_speed = DEFAULT_FAN_SPEED ∧
    s.save_fan_speed = none ∧ s.turbo_requested_by_user = false

/-! ### Rate-gated scheduler tasks -/

/-- The gate shared by `process_fan_schedule` and
`process_display_schedule`: run the body and record `millis()` iff
`rate + last_update < millis()`.  Returns the new `last_update` mark and
whether the body ran this tick. -/
def schedStep (rate last t : Nat) : Nat × Bool :=
  if elapsedGate last rate t = true then (t % ULONG_MOD, true) else (last, false)

/-- Run a rate-gated task over a list of tick times, collecting whether
the body ran at each tick. -/
def runSched (rate last : Nat) : List Nat → List Bool
  | [] => []
  | t :: rest =>
      let p := schedStep rate last t
      p.2 :: runSched rate p.1 rest

/-! ### Helper lemmas: debounce and event resolver -/

theorem classify_eq_notPressed (a b : Bool) :
    classify a b = BClass.notPressed ↔ a = false ∧ b = false := by
  cases a <;> cases b <;> simp [classify]

theorem buttonTick_lastRead (s : BtnState) (t : Nat) (r : Bool) :
    (buttonTick s t r).1.lastRead = r := by
  unfold buttonTick
  dsimp only
  split
  · split <;> rfl
  · split
    · split <;> rfl
    · split <;> rfl

theorem buttonTick_event_processed (s : BtnState) (t : Nat) (r : Bool)
    (e : BEvent) (h : (buttonTick s t r).2 = some e) :
    (buttonTick s t r).1.processed = true := by
  unfold buttonTick at h ⊢
  dsimp only at h ⊢
  split at h
  · split at h <;> simp_all
  · split at h
    · split at h <;> simp_all
    · split at h <;> simp_all

/-- One quiet step: from a `btnQuiet` state, with the next tick at most
one debounce window later and no fresh press, the resolver emits nothing
and stays quiet. -/
theorem buttonTick_quiet_step (s : BtnState) (tPrev t : Nat) (r : Bool)
    (hq : btnQuiet tPrev s) (hb : tPrev < 2147483648)
    (h1 : tPrev ≤ t) (h2 : t ≤ tPrev + DEBOUNCE_DELAY_MILLS)
    (h3 : t < 2147483648)
    (hp : (s.lastRead || !r) = true) :
    (buttonTick s t r).2 = none ∧ btnQuiet t (buttonTick s t r).1 := by
  obtain ⟨lr, ts0, pr⟩ := s
  rcases hq with hpr | ⟨hts, hlr, hpr⟩
  · have hpr2 : pr = true := hpr
    subst hpr2
    cases lr <;> cases r <;>
      cases hg1 : elapsedGate ts0 BUTTON_HOLD_FOR_TURBO_DELAY_IN_MILLIS t <;>
      cases hg2 : elapsedGate ts0 DEBOUNCE_DELAY_MILLS t <;>
      simp [buttonTick, classify, btnQuiet, hg1, hg2]
  · have hlr2 : lr = false := hlr
    have hpr2 : pr = false := hpr
    have hts2 : ts0 = tPrev % ULONG_MOD := hts
    subst hlr2
    subst hpr2
    subst hts2
    have hr : r = false := by simpa using hp
    subst hr
    have hgate : elapsedGate (tPrev % ULONG_MOD) DEBOUNCE_DELAY_MILLS t = false := by
      simp only [elapsedGate, decide_eq_false_iff_not, not_lt]
      unfold ULONG_MOD DEBOUNCE_DELAY_MILLS at *
      omega
    simp [buttonTick, classify, btnQuiet, hgate]

/-- Quiet run: from a `btnQuiet` state, over any press-free trace whose
ticks are at most one debounce window apart, the resolver never emits an
event. -/
theorem runButtonAux_quiet (tr : List (Nat × Bool)) :
    ∀ tPrev s, btnQuiet tPrev s → tPrev < 2147483648 →
      tickChain tPrev tr = true → pressFree s.lastRead tr = true →
      (runButtonAux s tr).2.all (fun e => e = none) = true := by
  induction tr with
  | nil => intro tPrev s _ _ _ _; rfl
  | cons hd rest ih =>
      obtain ⟨t, r⟩ := hd
      intro tPrev s hq hb hc hp
      simp only [tickChain, Bool.and_eq_true, decide_eq_true_eq] at hc
      obtain ⟨⟨⟨h1, h2⟩, h3⟩, hcrest⟩ := hc
      simp only [pressFree, Bool.and_eq_true] at hp
      obtain ⟨hp1, hprest⟩ := hp
      obtain ⟨hnone, hq2⟩ := buttonTick_quiet_step s tPrev t r hq hb h1 h2 h3 hp1
      simp only [runButtonAux, List.all_cons, hnone, Bool.and_eq_true]
      refine ⟨rfl, ?_⟩
      have h5 : pressFree (buttonTick s t r).1.lastRead rest = true := by
        rw [buttonTick_lastRead]
        exact hprest
      exact ih t (buttonTick s t r).1 hq2 h3 hcrest h5

/-! ### Claim C1 -/

/-- Claim C1 counterexample: the claim is false as stated.  On this trace
there is exactly one physical press (samples pressed only at ticks 1 and
2, times 1 and 2 ms), yet two `Click` events are dispatched (at times 51
and 100): the 52 ms tick clears the processed-flag and resets the timer
while the contact is open, and the next tick arrives more than
`DEBOUNCE_DELAY_MILLS` later, so the click branch fires a second time
with no new press.  `process_buttons` therefore does not emit at most
one logical event per press-release cycle for every sample sequence. -/
theorem c1_counterexample :
    runButton
        [(0, false), (1, true), (2, true), (50, false),
          (51, false), (52, false), (100, false)]
      = [none, none, none, none, some BEvent.click, none, some BEvent.click]
    ∧ [(0, false), (1, true), (2, true), (50, false),
        (51, false), (52, false), (100, false)].map Prod.snd
      = [false, true, true, false, false, false, false] := by
  constructor
  · decide
  · decide

/-- Claim C1 (amended): provided consecutive control ticks are at most
`DEBOUNCE_DELAY_MILLS` apart (and the 32-bit millisecond clock does not
wrap over the trace), the resolver emits at most one logical event per
physical press-release cycle: after any tick that dispatches an event
(`Click` or `Hold`), no further event is dispatched on any subsequent
tick until a fresh press begins (a tick classified `IS_PRESSED`). -/
theorem c1_amended (s : BtnState) (t : Nat) (r : Bool) (e : BEvent)
    (tr : List (Nat × Bool)) (he : (buttonTick s t r).2 = some e)
    (ht : t < 2147483648) (hc : tickChain t tr = true)
    (hp : pressFree r tr = true) :
    (runButtonAux (buttonTick s t r).1 tr).2.all (fun x => x = none) = true := by
  apply runButtonAux_quiet tr t (buttonTick s t r).1
    (Or.inl (buttonTick_event_processed s t r e he)) ht hc
  rw [buttonTick_lastRead]
  exact hp

/-- Witness for the amended C1 theorem at a concrete event tick and a
concrete press-free continuation. -/
theorem c1_amended_witness :
    (runButtonAux (buttonTick ⟨false, 0, false⟩ 41 false).1
        [(42, false), (60, false)]).2.all (fun x => x = none) = true :=
  c1_amended ⟨false, 0, false⟩ 41 false BEvent.click [(42, false), (60, false)]
    (by decide) (by decide) (by decide) (by decide)

/-! ### Claim C6 -/

/-- Claim C6 counterexample: the claim is false as stated.  The button is
pressed at 1 ms, held through 45 ms, released (first open sample at
46 ms, classified `WAS_RELEASED`), and at 47 ms — with the contact
continuously open for only 1 ms, far less than
`DEBOUNCE_DELAY_MILLS = 40` — a `Click` is dispatched, because the
debounce timer was frozen at the pre-press reset (time 0), not at the
release. -/
theorem c6_counterexample :
    runButton [(0, false), (1, true), (45, true), (46, false), (47, false)]
      = [none, none, none, none, some BEvent.click]
    ∧ 47 - 46 < DEBOUNCE_DELAY_MILLS := by
  constructor
  · decide
  · decide

/-- Claim C6 (amended): a `Click` is dispatched only on a tick classified
`IS_NOT_PRESSED` (both the previous and the current raw sample open)
with the processed-flag clear and with more than `DEBOUNCE_DELAY_MILLS`
elapsed since the button's last interaction-timestamp reset — and that
timestamp stays frozen on every `IS_PRESSED`, `WAS_RELEASED`, or
below-threshold `IS_HELD` tick, so the window is measured from before
the press began, not from the release: the contact need not have been
open for `DEBOUNCE_DELAY_MILLS` when the `Click` fires. -/
theorem c6_amended :
    (∀ (s : BtnState) (t : Nat) (r : Bool),
        (buttonTick s t r).2 = some BEvent.click →
          s.lastRead = false ∧ r = false ∧ s.processed = false ∧
            elapsedGate s.ts DEBOUNCE_DELAY_MILLS t = true) ∧
    (∀ (s : BtnState) (t : Nat) (r : Bool),
        (classify s.lastRead r = BClass.isPressed ∨
          classify s.lastRead r = BClass.wasReleased ∨
          (classify s.lastRead r = BClass.isHeld ∧
            elapsedGate s.ts BUTTON_HOLD_FOR_TURBO_DELAY_IN_MILLIS t = false)) →
          (buttonTick s t r).1.ts = s.ts) := by
  constructor
  · intro s t r h
    obtain ⟨lr, ts0, pr⟩ := s
    cases lr <;> cases r <;> cases pr <;>
      cases hg1 : elapsedGate ts0 BUTTON_HOLD_FOR_TURBO_DELAY_IN_MILLIS t <;>
      cases hg2 : elapsedGate ts0 DEBOUNCE_DELAY_MILLS t <;>
      simp_all [buttonTick, classify]
  · intro s t r h
    obtain ⟨lr, ts0, pr⟩ := s
    rcases h with h | h | ⟨h, hg⟩ <;> cases lr <;> cases r <;>
      simp_all [buttonTick, classify]

/-- Witness for the amended C6 theorem: the click branch fired at a
concrete input (both conclusions instantiated concretely). -/
theorem c6_amended_witness :
    ((⟨false, 0, false⟩ : BtnState).lastRead = false ∧ false = false ∧
        (⟨false, 0, false⟩ : BtnState).processed = false ∧
        elapsedGate (⟨false, 0, false⟩ : BtnState).ts DEBOUNCE_DELAY_MILLS 41 = true) ∧
      (buttonTick ⟨true, 7, false⟩ 9 true).1.ts = (⟨true, 7, false⟩ : BtnState).ts :=
  ⟨c6_amended.1 ⟨false, 0, false⟩ 41 false (by decide),
    c6_amended.2 ⟨true, 7, false⟩ 9 true (by decide)⟩

/-! ### Claim C7 -/

/-- Claim C7 counterexample: the claim is false as stated.  With perfect
1 kHz sampling (`pressTrace 1 39 2`: one open tick, then a press lasting
39 ms — strictly shorter than `DEBOUNCE_DELAY_MILLS = 40` — then
release), the resolver still dispatches a `Click`: the debounce timer
was last reset at time 0, so at the first `IS_NOT_PRESSED` tick after
release (time 41) more than 40 ms have elapsed and the click branch
fires.  A sub-debounce press is therefore not always absorbed. -/
theorem c7_counterexample :
    some BEvent.click ∈ runButton (pressTrace 1 39 2)
      ∧ 39 < DEBOUNCE_DELAY_MILLS := by
  constructor
  · decide
  · decide

theorem runButtonAux_cons (s : BtnState) (t : Nat) (r : Bool)
    (rest : List (Nat × Bool)) :
    runButtonAux s ((t, r) :: rest)
      = ((runButtonAux (buttonTick s t r).1 rest).1,
          (buttonTick s t r).2 :: (runButtonAux (buttonTick s t r).1 rest).2) := rfl

theorem runButtonAux_append (s : BtnState) (l1 l2 : List (Nat × Bool)) :
    runButtonAux s (l1 ++ l2)
      = ((runButtonAux (runButtonAux s l1).1 l2).1,
          (runButtonAux s l1).2 ++ (runButtonAux (runButtonAux s l1).1 l2).2) := by
  induction l1 generalizing s with
  | nil => simp [runButtonAux]
  | cons hd tl ih =>
      obtain ⟨t, r⟩ := hd
      simp [runButtonAux, ih]

/-- A run of consecutive idle 1 ms ticks starting at `a`, from an idle
state whose timestamp is within one debounce window of `a`, emits
nothing and leaves the timestamp at the last tick's time. -/
theorem runButtonAux_idle (n : Nat) :
    ∀ a ts0, a ≤ ts0 + DEBOUNCE_DELAY_MILLS → ts0 < 2147483648 →
      a + n < 2147483648 →
      runButtonAux ⟨false, ts0 % ULONG_MOD, false⟩ (idleTicks a (n + 1))
        = (⟨false, (a + n) % ULONG_MOD, false⟩, List.replicate (n + 1) none) := by
  induction n with
  | zero =>
      intro a ts0 h1 h2 h3
      have hg : elapsedGate (ts0 % ULONG_MOD) DEBOUNCE_DELAY_MILLS a = false := by
        simp only [elapsedGate, decide_eq_false_iff_not, not_lt]
        unfold ULONG_MOD DEBOUNCE_DELAY_MILLS at *
        omega
      simp [idleTicks, runButtonAux, buttonTick, classify, hg]
  | succ n ih =>
      intro a ts0 h1 h2 h3
      have hg : elapsedGate (ts0 % ULONG_MOD) DEBOUNCE_DELAY_MILLS a = false := by
        simp only [elapsedGate, decide_eq_false_iff_not, not_lt]
        unfold ULONG_MOD DEBOUNCE_DELAY_MILLS at *
        omega
      have ih2 := ih (a + 1) a (by unfold DEBOUNCE_DELAY_MILLS; omega)
        (by omega) (by omega)
      have hbt : buttonTick ⟨false, ts0 % ULONG_MOD, false⟩ a false
          = (⟨false, a % ULONG_MOD, false⟩, none) := by
        simp [buttonTick, classify, hg]
      have hstep : idleTicks a (n + 1 + 1) = (a, false) :: idleTicks (a + 1) (n + 1) := rfl
      rw [hstep, runButtonAux_cons, hbt]
      dsimp only
      rw [ih2]
      have hsum : a + 1 + n = a + (n + 1) := by omega
      rw [hsum]
      simp [List.replicate_succ]

/-- A run of held (contact closed) 1 ms ticks, all within the hold
threshold of the frozen timestamp, emits nothing and changes nothing. -/
theorem runButtonAux_held (n : Nat) :
    ∀ a ts0, a + n ≤ ts0 + BUTTON_HOLD_FOR_TURBO_DELAY_IN_MILLIS →
      ts0 < 2147483648 → a + n < 2147483648 →
      runButtonAux ⟨true, ts0 % ULONG_MOD, false⟩ (heldTicks a n)
        = (⟨true, ts0 % ULONG_MOD, false⟩, List.replicate n none) := by
  induction n with
  | zero => intro a ts0 _ _ _; rfl
  | succ n ih =>
      intro a ts0 h1 h2 h3
      have hg : elapsedGate (ts0 % ULONG_MOD)
          BUTTON_HOLD_FOR_TURBO_DELAY_IN_MILLIS a = false := by
        simp only [elapsedGate, decide_eq_false_iff_not, not_lt]
        unfold ULONG_MOD BUTTON_HOLD_FOR_TURBO_DELAY_IN_MILLIS at *
        omega
      have ih2 := ih (a + 1) ts0 (by omega) h2 (by omega)
      simp [heldTicks, runButtonAux, buttonTick, classify, hg, ih2,
        List.replicate_succ]

theorem all_none_replicate (n : Nat) :
    (List.replicate n (none : Option BEvent)).all (fun x => x = none) = true := by
  induction n with
  | zero => rfl
  | succ n ih => simp [List.replicate_succ, ih]

/-- Claim C7 (amended): at the configured 1 ms button polling rate, a
press of duration at most `DEBOUNCE_DELAY_MILLS - 2` milliseconds,
preceded by at least one stable open tick and followed by release,
emits no logical event at all — in particular a 10 ms press with
`DEBOUNCE_DELAY_MILLS = 40` produces no `Click`.  (Presses between
`DEBOUNCE_DELAY_MILLS - 2` and `DEBOUNCE_DELAY_MILLS` can still emit a
`Click`, as the counterexample shows, because the debounce window is
measured from the pre-press timer reset rather than from the release.) -/
theorem c7_amended (pre d post : Nat) (h1 : 1 ≤ pre) (h2 : 1 ≤ d)
    (h3 : d ≤ DEBOUNCE_DELAY_MILLS - 2) (h4 : pre + d + post < 2147483648) :
    (runButton (pressTrace pre d post)).all (fun x => x = none) = true := by
  obtain ⟨p, rfl⟩ : ∃ p, pre = p + 1 := ⟨pre - 1, by omega⟩
  obtain ⟨e, rfl⟩ : ∃ e, d = e + 1 := ⟨d - 1, by omega⟩
  have h3b : e + 1 ≤ 38 := by
    unfold DEBOUNCE_DELAY_MILLS at h3
    omega
  have hrb : runButton (pressTrace (p + 1) (e + 1) post)
      = (runButtonAux ⟨false, 0 % ULONG_MOD, false⟩
          (pressTrace (p + 1) (e + 1) post)).2 := rfl
  rw [hrb]
  rw [show pressTrace (p + 1) (e + 1) post
      = (idleTicks 0 (p + 1) ++ heldTicks (p + 1) (e + 1))
          ++ idleTicks (p + 1 + (e + 1)) post from rfl]
  rw [List.append_assoc]
  rw [runButtonAux_append]
  dsimp only
  have hidle := runButtonAux_idle p 0 0
    (by unfold DEBOUNCE_DELAY_MILLS; omega) (by omega) (by omega)
  rw [hidle]
  dsimp only
  simp only [Nat.zero_add]
  rw [runButtonAux_append]
  dsimp only
  rw [show heldTicks (p + 1) (e + 1) = (p + 1, true) :: heldTicks (p + 1 + 1) e from rfl]
  rw [runButtonAux_cons]
  have hedge : buttonTick ⟨false, p % ULONG_MOD, false⟩ (p + 1) true
      = (⟨true, p % ULONG_MOD, false⟩, none) := by
    simp [buttonTick, classify]
  rw [hedge]
  dsimp only
  have hheld := runButtonAux_held e (p + 1 + 1) p
    (by unfold BUTTON_HOLD_FOR_TURBO_DELAY_IN_MILLIS; omega) (by omega) (by omega)
  rw [hheld]
  dsimp only
  cases post with
  | zero =>
      simp [runButtonAux, idleTicks, List.all_append, all_none_replicate]
  | succ m =>
      rw [show idleTicks (p + 1 + (e + 1)) (m + 1)
          = (p + 1 + (e + 1), false) :: idleTicks (p + 1 + (e + 1) + 1) m from rfl]
      rw [runButtonAux_cons]
      have hrel : buttonTick ⟨true, p % ULONG_MOD, false⟩ (p + 1 + (e + 1)) false
          = (⟨false, p % ULONG_MOD, false⟩, none) := by
        simp [buttonTick, classify]
      rw [hrel]
      dsimp only
      cases m with
      | zero =>
          simp [runButtonAux, idleTicks, List.all_append, List.all_cons,
            all_none_replicate]
      | succ m2 =>
          have hidle2 := runButtonAux_idle m2 (p + 1 + (e + 1) + 1) p
            (by unfold DEBOUNCE_DELAY_MILLS at *; omega) (by omega) (by omega)
          rw [hidle2]
          simp [List.all_append, List.all_cons, all_none_replicate]

/-- Witness for the amended C7 theorem: a 10 ms press at 1 kHz sampling
emits no event. -/
theorem c7_amended_witness :
    (runButton (pressTrace 1 10 5)).all (fun x => x = none) = true :=
  c7_amended 1 10 5 (by decide) (by decide) (by decide) (by decide)

/-! ### Claim C8 -/

/-- Claim C8 counterexample: the claim is false as stated.  The
comparison `mark + interval < now` on 32-bit unsigned values is not
wraparound-consistent: with the mark stored 10 ms before the counter
wraps (`mark = 2^32 - 10`) and only 5 ms actually elapsed
(`now = 2^32 - 5`), `mark + DEBOUNCE_DELAY_MILLS` overflows to 30 and
the gate fires even though the elapsed time (5 ms) is far below the
interval (40 ms). -/
theorem c8_counterexample :
    elapsedGate (ULONG_MOD - 10) DEBOUNCE_DELAY_MILLS (ULONG_MOD - 5) = true
      ∧ (ULONG_MOD - 5) - (ULONG_MOD - 10) < DEBOUNCE_DELAY_MILLS := by
  constructor
  · decide
  · decide

/-- Claim C8 (amended): the comparison `mark + interval < now` computes
the correct "elapsed time exceeds interval" result only in the absence
of wraparound — whenever `mark + interval` does not overflow 2^32 and
`now` has not wrapped past the counter maximum — and in that regime it
is exact for every timer of the program (hold, debounce, turbo prompt,
fan and display rate gates, which all instantiate `interval`). -/
theorem c8_amended (mark interval now : Nat)
    (h1 : mark + interval < ULONG_MOD) (h2 : now < ULONG_MOD) :
    elapsedGate mark interval now = true ↔ mark + interval < now := by
  simp only [elapsedGate, decide_eq_true_eq]
  rw [Nat.mod_eq_of_lt h1, Nat.mod_eq_of_lt h2]

/-- Witness for the amended C8 theorem at the debounce interval. -/
theorem c8_amended_witness :
    elapsedGate 100 DEBOUNCE_DELAY_MILLS 141 = true ↔ 100 + DEBOUNCE_DELAY_MILLS < 141 :=
  c8_amended 100 DEBOUNCE_DELAY_MILLS 141 (by decide) (by decide)

/-! ### Claim C9 -/

/-- Claim C9 counterexample: the claim is false as stated.  With the
fan task's last-run mark at 0 and the tick arriving at exactly
`FAN_REFRESH_RATE_MILLIS = 10` ms — so at least the configured interval
has elapsed — the gate `rate + last < now` is `10 < 10` and the body
does not run, contradicting the claimed "if and only if at least the
interval has elapsed". -/
theorem c9_counterexample :
    (schedStep FAN_REFRESH_RATE_MILLIS 0 FAN_REFRESH_RATE_MILLIS).2 = false
      ∧ FAN_REFRESH_RATE_MILLIS - 0 ≥ FAN_REFRESH_RATE_MILLIS := by
  constructor
  · decide
  · decide

/-- Claim C9 (amended): absent clock wraparound, each rate-gated task
(`process_fan_schedule` with `FAN_REFRESH_RATE_MILLIS`,
`process_display_schedule` with `DISPLAY_REFRESH_RATE_MILLIS`) executes
its body iff strictly more than its configured interval has elapsed
since its recorded last run (not "at least"); consequently, after a run
records time `t1`, no tick at a time up to `t1 + rate` runs the body
again, so the task never runs twice within one configured interval. -/
theorem c9_amended :
    (∀ (rate last t : Nat), last + rate < ULONG_MOD → t < ULONG_MOD →
        ((schedStep rate last t).2 = true ↔ last + rate < t)) ∧
    (∀ (rate t1 : Nat) (ts : List Nat), t1 + rate < ULONG_MOD →
        ts.all (fun t => t ≤ t1 + rate) = true →
        (runSched rate t1 ts).all (fun b => b = false) = true) := by
  constructor
  · intro rate last t h1 h2
    simp only [schedStep, elapsedGate, Nat.mod_eq_of_lt h1, Nat.mod_eq_of_lt h2]
    by_cases h : last + rate < t
    · simp [h]
    · simp [h]
  · intro rate t1 ts h1 h2
    induction ts with
    | nil => rfl
    | cons t rest ih =>
        simp only [List.all_cons, Bool.and_eq_true, decide_eq_true_eq] at h2
        obtain ⟨hle, hrest⟩ := h2
        have hg : elapsedGate t1 rate t = false := by
          simp only [elapsedGate, decide_eq_false_iff_not, not_lt]
          rw [Nat.mod_eq_of_lt h1]
          exact le_trans (Nat.mod_le t ULONG_MOD) hle
        simp only [runSched, schedStep, hg]
        simp only [Bool.false_eq_true, if_false, List.all_cons]
        exact ih hrest

/-- Witness for the amended C9 theorem: the fan task at marks 0 and 11,
and a concrete run where no tick within the interval re-runs the body. -/
theorem c9_amended_witness :
    ((schedStep FAN_REFRESH_RATE_MILLIS 0 11).2 = true ↔ 0 + FAN_REFRESH_RATE_MILLIS < 11) ∧
      (runSched DISPLAY_REFRESH_RATE_MILLIS 50 [60, 100, 150]).all
        (fun b => b = false) = true :=
  ⟨c9_amended.1 FAN_REFRESH_RATE_MILLIS 0 11 (by decide) (by decide),
    c9_amended.2 DISPLAY_REFRESH_RATE_MILLIS 50 [60, 100, 150] (by decide) (by decide)⟩

/-! ### Helper lemmas: power/speed state machine -/

theorem speed_up_fan_speed_onoff (s : SysState) :
    (speed_up_fan_speed s).onoff = s.onoff := by
  unfold speed_up_fan_speed
  split_ifs <;> rfl

theorem slow_down_fan_speed_onoff (s : SysState) :
    (slow_down_fan_speed s).onoff = s.onoff := by
  unfold slow_down_fan_speed
  split_ifs <;> rfl

theorem applyUpEvent_offZero (s : SysState) (ev : Option BEvent)
    (h : offZero s) : offZero (applyUpEvent s ev) := by
  cases ev with
  | none => exact h
  | some e =>
      cases e with
      | hold => exact h
      | click =>
          unfold applyUpEvent process_speed_up_click
          split_ifs with ho
          · intro h2
            rw [speed_up_fan_speed_onoff] at h2
            exact absurd h2 ho
          · exact h

theorem applyDownEvent_offZero (s : SysState) (ev : Option BEvent)
    (h : offZero s) : offZero (applyDownEvent s ev) := by
  cases ev with
  | none => exact h
  | some e =>
      cases e with
      | hold => exact h
      | click =>
          unfold applyDownEvent process_speed_down_click
          split_ifs with ho
          · intro h2
            rw [slow_down_fan_speed_onoff] at h2
            exact absurd h2 ho
          · exact h

theorem applyOnoffEvent_offZero (s : SysState) (ev : Option BEvent)
    (h : offZero s) : offZero (applyOnoffEvent s ev) := by
  cases ev with
  | none => exact h
  | some e =>
      cases e with
      | click =>
          unfold applyOnoffEvent process_onoff_click
          dsimp only
          split_ifs with ho
          · intro _
            rfl
          · intro h2
            dsimp only at h2
            exact absurd h2 (by unfold SYSTEM_ON SYSTEM_OFF; omega)
      | hold =>
          unfold applyOnoffEvent process_onoff_hold set_max_fan_speed
          dsimp only
          split_ifs with ho
          · intro h2
            dsimp only at h2
            exact absurd h2 ho
          · exact h

theorem process_turbo_request_speed (s : SysState) (t : Nat) :
    (process_turbo_request s t).user_fan_speed = s.user_fan_speed := by
  unfold process_turbo_request
  dsimp only
  split_ifs <;> rfl

theorem process_turbo_request_offZero (s : SysState) (t : Nat)
    (h : offZero s) : offZero (process_turbo_request s t) := by
  intro h2
  rw [process_turbo_request_speed]
  apply h
  revert h2
  unfold process_turbo_request
  dsimp only
  split_ifs <;> intro h2 <;>
    simp_all [SYSTEM_ON, SYSTEM_OFF, TURBO_REQUESTED]

theorem machineTick_offZero (s : SysState) (i : TickIn)
    (h : offZero s) : offZero (machineTick s i) := by
  unfold machineTick
  exact process_turbo_request_offZero _ _
    (applyOnoffEvent_offZero _ _
      (applyDownEvent_offZero _ _ (applyUpEvent_offZero _ _ h)))

theorem runSys_offZero (ins : List TickIn) :
    ∀ s, offZero s → offZero (runSys s ins) := by
  induction ins with
  | nil => intro s h; exact h
  | cons i rest ih =>
      intro s h
      exact ih (machineTick s i) (machineTick_offZero s i h)

/-- With the system off, no pending turbo request, and no power-toggle
click this tick, a whole control tick leaves the state unchanged. -/
theorem machineTick_off_noclick (s : SysState) (i : TickIn)
    (h1 : s.onoff = SYSTEM_OFF) (h4 : s.turbo_requested_by_user = false)
    (hoc : i.onoff ≠ some BEvent.click) :
    machineTick s i = s := by
  obtain ⟨a, b, c, d, e⟩ := s
  have h1b : a = SYSTEM_OFF := h1
  have h4b : d = false := h4
  subst h1b
  subst h4b
  have hup : applyUpEvent ⟨SYSTEM_OFF, b, c, false, e⟩ i.up
      = ⟨SYSTEM_OFF, b, c, false, e⟩ := by
    cases hu : i.up with
    | none => rfl
    | some ev =>
        cases ev with
        | hold => rfl
        | click => simp [applyUpEvent, process_speed_up_click]
  have hdown : applyDownEvent ⟨SYSTEM_OFF, b, c, false, e⟩ i.down
      = ⟨SYSTEM_OFF, b, c, false, e⟩ := by
    cases hd : i.down with
    | none => rfl
    | some ev =>
        cases ev with
        | hold => rfl
        | click => simp [applyDownEvent, process_speed_down_click]
  have honoff : applyOnoffEvent ⟨SYSTEM_OFF, b, c, false, e⟩ i.onoff
      = ⟨SYSTEM_OFF, b, c, false, e⟩ := by
    cases ho : i.onoff with
    | none => rfl
    | some ev =>
        cases ev with
        | hold => simp [applyOnoffEvent, process_onoff_hold]
        | click => exact absurd ho hoc
  unfold machineTick
  rw [hup, hdown, honoff]
  simp [process_turbo_request, TURBO_REQUESTED, SYSTEM_OFF]

/-- With the system off, no pending turbo request, and no power-toggle
click anywhere in the tick list, the whole run is a no-op. -/
theorem runSys_off_noclick (ins : List TickIn) :
    ∀ s, s.onoff = SYSTEM_OFF → s.turbo_requested_by_user = false →
      noOnoffClick ins = true → runSys s ins = s := by
  induction ins with
  | nil => intro s _ _ _; rfl
  | cons i rest ih =>
      intro s h1 h4 hno
      simp only [noOnoffClick, Bool.and_eq_true, decide_eq_true_eq] at hno
      obtain ⟨hoc, hrest⟩ := hno
      unfold runSys
      rw [machineTick_off_noclick s i h1 h4 hoc]
      exact ih s h1 h4 hrest

theorem applyUpEvent_off (s : SysState) (ev : Option BEvent)
    (h : s.onoff = SYSTEM_OFF) : applyUpEvent s ev = s := by
  cases ev with
  | none => rfl
  | some e =>
      cases e with
      | hold => rfl
      | click => simp [applyUpEvent, process_speed_up_click, h]

theorem applyDownEvent_off (s : SysState) (ev : Option BEvent)
    (h : s.onoff = SYSTEM_OFF) : applyDownEvent s ev = s := by
  cases ev with
  | none => rfl
  | some e =>
      cases e with
      | hold => rfl
      | click => simp [applyDownEvent, process_speed_down_click, h]

/-- When no turbo request is pending and the state is not
`TURBO_REQUESTED`, `process_turbo_request` only clears the (already
clear) request flag. -/
theorem process_turbo_request_pass (s : SysState) (t : Nat)
    (hf : s.turbo_requested_by_user = false)
    (ho : s.onoff ≠ TURBO_REQUESTED) :
    process_turbo_request s t = { s with turbo_requested_by_user := false } := by
  simp [process_turbo_request, hf, ho]

/-- A power-toggle click processed while off (regardless of simultaneous
speed-button events, which are no-ops while off): the system turns on
and the fan speed is restored from the saved speed (defaulting to the
current speed if the static saver has never been initialized). -/
theorem machineTick_off_click (s : SysState) (i : TickIn)
    (h1 : s.onoff = SYSTEM_OFF) (h4 : s.turbo_requested_by_user = false)
    (hoc : i.onoff = some BEvent.click) :
    machineTick s i
      = { s with onoff := SYSTEM_ON,
                 user_fan_speed := s.save_fan_speed.getD s.user_fan_speed,
                 save_fan_speed := some (s.save_fan_speed.getD s.user_fan_speed),
                 turbo_requested_by_user := false } := by
  unfold machineTick
  rw [applyUpEvent_off s i.up h1, applyDownEvent_off s i.down h1, hoc]
  have hclick : applyOnoffEvent s (some BEvent.click)
      = { s with onoff := SYSTEM_ON,
                 user_fan_speed := s.save_fan_speed.getD s.user_fan_speed,
                 save_fan_speed := some (s.save_fan_speed.getD s.user_fan_speed) } := by
    simp [applyOnoffEvent, process_onoff_click, h1]
  rw [hclick]
  rw [process_turbo_request_pass _ i.t (by exact h4)
    (by unfold SYSTEM_ON TURBO_REQUESTED; dsimp only; omega)]

/-- A power-toggle click processed while on (with no other events in the
tick): the system turns off, the speed is saved, and the speed is
zeroed. -/
theorem machineTick_on_click (s : SysState) (t : Nat)
    (h1 : s.onoff = SYSTEM_ON) (h4 : s.turbo_requested_by_user = false) :
    machineTick s ⟨none, none, some BEvent.click, t⟩
      = { s with onoff := SYSTEM_OFF,
                 save_fan_speed := some s.user_fan_speed,
                 user_fan_speed := OFF_FAN_SPEED,
                 turbo_requested_by_user := false } := by
  unfold machineTick
  dsimp only [applyUpEvent, applyDownEvent, applyOnoffEvent]
  have hclick : process_onoff_click s
      = { s with onoff := SYSTEM_OFF,
                 save_fan_speed := some s.user_fan_speed,
                 user_fan_speed := OFF_FAN_SPEED } := by
    simp [process_onoff_click, h1, SYSTEM_ON, SYSTEM_OFF]
  rw [hclick]
  rw [process_turbo_request_pass _ t (by exact h4)
    (by unfold SYSTEM_OFF TURBO_REQUESTED; dsimp only; omega)]

/-- From the boot shape, every run either reaches a state satisfying the
off-implies-zero invariant, or no power-toggle click has occurred and
the state is still in the boot shape. -/
theorem runSys_offZero_or_boot (ins : List TickIn) :
    ∀ s, initShape s →
      offZero (runSys s ins) ∨
        (initShape (runSys s ins) ∧ noOnoffClick ins = true) := by
  induction ins with
  | nil => intro s h; exact Or.inr ⟨h, rfl⟩
  | cons i rest ih =>
      intro s h
      obtain ⟨h1, h2, h3, h4⟩ := h
      simp only [runSys]
      by_cases hoc : i.onoff = some BEvent.click
      · left
        apply runSys_offZero
        rw [machineTick_off_click s i h1 h4 hoc]
        intro hcontra
        exact absurd hcontra (by unfold SYSTEM_ON SYSTEM_OFF; dsimp only; omega)
      · have hshape : initShape (machineTick s i) := by
          rw [machineTick_off_noclick s i h1 h4 hoc]
          exact ⟨h1, h2, h3, h4⟩
        rcases ih (machineTick s i) hshape with hl | ⟨hr1, hr2⟩
        · exact Or.inl hl
        · right
          refine ⟨hr1, ?_⟩
          simp [noOnoffClick, hoc, hr2]

/-! ### Claim C2 -/

/-- Claim C2 counterexample: the claim is false as stated.  The state
immediately after `setup()` completes has `onoff_state = SYSTEM_OFF`
(set at the end of `setup()`), but `user_fan_speed` still holds its
global initializer `DEFAULT_FAN_SPEED = 2`, not 0: `setup()` never
zeroes the speed variable. -/
theorem c2_counterexample :
    (initSys 0).onoff = SYSTEM_OFF
      ∧ ¬ (initSys 0).user_fan_speed = OFF_FAN_SPEED := by
  constructor
  · decide
  · decide

/-- Claim C2 (amended): in every reachable state with the power state
Off, the fan speed level is 0 — except in the states reached before the
first power-toggle click has ever been processed (in particular the
state immediately after `setup()`), where `user_fan_speed` still holds
`DEFAULT_FAN_SPEED = 2`. -/
theorem c2_amended (t0 : Nat) (ins : List TickIn)
    (hoff : (runSys (initSys t0) ins).onoff = SYSTEM_OFF) :
    (runSys (initSys t0) ins).user_fan_speed = OFF_FAN_SPEED ∨
      (noOnoffClick ins = true ∧
        (runSys (initSys t0) ins).user_fan_speed = DEFAULT_FAN_SPEED) := by
  rcases runSys_offZero_or_boot ins (initSys t0) ⟨rfl, rfl, rfl, rfl⟩
    with hl | ⟨hr1, hr2⟩
  · exact Or.inl (hl hoff)
  · exact Or.inr ⟨hr2, hr1.2.1⟩

/-- Witness for the amended C2 theorem at the boot state itself. -/
theorem c2_amended_witness :
    (runSys (initSys 0) []).user_fan_speed = OFF_FAN_SPEED ∨
      (noOnoffClick [] = true ∧
        (runSys (initSys 0) []).user_fan_speed = DEFAULT_FAN_SPEED) :=
  c2_amended 0 [] (by decide)

/-! ### Claim C10 -/

/-- Claim C10 (confirmed): for any run from boot containing no
power-toggle click, the very first power-toggle click turns the system
on with `user_fan_speed = DEFAULT_FAN_SPEED = 2`: the static
`save_fan_speed` initializes, at that first call, to the current
`user_fan_speed`, which is still the global default — no On-to-Off
transition ever saved a speed. -/
theorem c10_first_power_on (t0 t : Nat) (ins : List TickIn)
    (hno : noOnoffClick ins = true) :
    (machineTick (runSys (initSys t0) ins)
        ⟨none, none, some BEvent.click, t⟩).onoff = SYSTEM_ON ∧
      (machineTick (runSys (initSys t0) ins)
        ⟨none, none, some BEvent.click, t⟩).user_fan_speed = DEFAULT_FAN_SPEED ∧
      (machineTick (runSys (initSys t0) ins)
        ⟨none, none, some BEvent.click, t⟩).save_fan_speed = some DEFAULT_FAN_SPEED ∧
      DEFAULT_FAN_SPEED = 2 := by
  have hrun : runSys (initSys t0) ins = initSys t0 :=
    runSys_off_noclick ins (initSys t0) rfl rfl hno
  rw [hrun]
  rw [machineTick_off_click (initSys t0) ⟨none, none, some BEvent.click, t⟩
    rfl rfl rfl]
  refine ⟨rfl, ?_, ?_, rfl⟩ <;> simp [initSys]

/-- Witness for the C10 theorem with a concrete pre-click run (a
speed-down click while off, which is a no-op). -/
theorem c10_first_power_on_witness :
    (machineTick (runSys (initSys 0) [⟨none, some BEvent.click, none, 5⟩])
        ⟨none, none, some BEvent.click, 50⟩).onoff = SYSTEM_ON ∧
      (machineTick (runSys (initSys 0) [⟨none, some BEvent.click, none, 5⟩])
        ⟨none, none, some BEvent.click, 50⟩).user_fan_speed = DEFAULT_FAN_SPEED ∧
      (machineTick (runSys (initSys 0) [⟨none, some BEvent.click, none, 5⟩])
        ⟨none, none, some BEvent.click, 50⟩).save_fan_speed = some DEFAULT_FAN_SPEED ∧
      DEFAULT_FAN_SPEED = 2 :=
  c10_first_power_on 0 50 [⟨none, some BEvent.click, none, 5⟩] (by decide)

/-! ### Claim C3 -/

/-- Claim C3 (confirmed): from any On state with fan speed `v` and no
pending turbo request, a power-toggle click turns the system Off (speed
saved, level zeroed); after any further ticks carrying no power-toggle
click the system is still Off; and a second power-toggle click turns
the system back On with the fan speed restored to exactly `v` — the
round trip through Off is the identity on the user-selected speed. -/
theorem c3_off_on_roundtrip (s : SysState) (v t1 t2 : Nat) (ins : List TickIn)
    (hOn : s.onoff = SYSTEM_ON) (hv : s.user_fan_speed = v)
    (hf : s.turbo_requested_by_user = false)
    (hins : noOnoffClick ins = true) :
    (machineTick s ⟨none, none, some BEvent.click, t1⟩).onoff = SYSTEM_OFF ∧
      (machineTick s ⟨none, none, some BEvent.click, t1⟩).user_fan_speed
        = OFF_FAN_SPEED ∧
      (runSys (machineTick s ⟨none, none, some BEvent.click, t1⟩) ins).onoff
        = SYSTEM_OFF ∧
      (machineTick
          (runSys (machineTick s ⟨none, none, some BEvent.click, t1⟩) ins)
          ⟨none, none, some BEvent.click, t2⟩).onoff = SYSTEM_ON ∧
      (machineTick
          (runSys (machineTick s ⟨none, none, some BEvent.click, t1⟩) ins)
          ⟨none, none, some BEvent.click, t2⟩).user_fan_speed = v := by
  rw [machineTick_on_click s t1 hOn hf]
  have hmid : runSys
      { s with onoff := SYSTEM_OFF,
               save_fan_speed := some s.user_fan_speed,
               user_fan_speed := OFF_FAN_SPEED,
               turbo_requested_by_user := false } ins
      = { s with onoff := SYSTEM_OFF,
                 save_fan_speed := some s.user_fan_speed,
                 user_fan_speed := OFF_FAN_SPEED,
                 turbo_requested_by_user := false } :=
    runSys_off_noclick ins _ rfl rfl hins
  rw [hmid]
  rw [machineTick_off_click _ ⟨none, none, some BEvent.click, t2⟩ rfl rfl rfl]
  refine ⟨rfl, rfl, rfl, rfl, ?_⟩
  simp [hv]

/-- Witness for the C3 theorem: speed 7 survives an Off round trip with
an intervening speed-up click (a no-op while off). -/
theorem c3_off_on_roundtrip_witness :
    (machineTick (⟨SYSTEM_ON, 7, some 3, false, 0⟩ : SysState)
        ⟨none, none, some BEvent.click, 10⟩).onoff = SYSTEM_OFF ∧
      (machineTick (⟨SYSTEM_ON, 7, some 3, false, 0⟩ : SysState)
        ⟨none, none, some BEvent.click, 10⟩).user_fan_speed = OFF_FAN_SPEED ∧
      (runSys (machineTick (⟨SYSTEM_ON, 7, some 3, false, 0⟩ : SysState)
          ⟨none, none, some BEvent.click, 10⟩)
        [⟨some BEvent.click, none, none, 20⟩]).onoff = SYSTEM_OFF ∧
      (machineTick (runSys (machineTick (⟨SYSTEM_ON, 7, some 3, false, 0⟩ : SysState)
            ⟨none, none, some BEvent.click, 10⟩)
          [⟨some BEvent.click, none, none, 20⟩])
        ⟨none, none, some BEvent.click, 900⟩).onoff = SYSTEM_ON ∧
      (machineTick (runSys (machineTick (⟨SYSTEM_ON, 7, some 3, false, 0⟩ : SysState)
            ⟨none, none, some BEvent.click, 10⟩)
          [⟨some BEvent.click, none, none, 20⟩])
        ⟨none, none, some BEvent.click, 900⟩).user_fan_speed = 7 :=
  c3_off_on_roundtrip ⟨SYSTEM_ON, 7, some 3, false, 0⟩ 7 10 900
    [⟨some BEvent.click, none, none, 20⟩] (by decide) (by decide)
    (by decide) (by decide)

/-! ### Claim C4 -/

/-- Claim C4 (confirmed, absent clock wraparound in the prompt window):
from On at fan speed level 9 (`MAX_PWM_SPEED`) with no pending turbo
request, a SpeedUp click leaves the level at 9 — it is never
incremented to 10 — raises the one-shot turbo request flag, and
`process_turbo_request` consumes it in the same tick, leaving the
machine in `TURBO_REQUESTED` with the flag cleared. -/
theorem c4_speed9_turbo (s : SysState) (t : Nat)
    (hOn : s.onoff = SYSTEM_ON) (h9 : s.user_fan_speed = MAX_PWM_SPEED)
    (hf : s.turbo_requested_by_user = false)
    (ht : t + TURBO_TEXT_DISPLAY_TIME_IN_MILLIS < ULONG_MOD) :
    (machineTick s ⟨some BEvent.click, none, none, t⟩).user_fan_speed
        = MAX_PWM_SPEED ∧
      (machineTick s ⟨some BEvent.click, none, none, t⟩).onoff
        = TURBO_REQUESTED ∧
      (machineTick s ⟨some BEvent.click, none, none, t⟩).turbo_requested_by_user
        = false := by
  obtain ⟨a, b, c, d, e⟩ := s
  have hOn2 : a = SYSTEM_ON := hOn
  have h92 : b = MAX_PWM_SPEED := h9
  have hf2 : d = false := hf
  subst hOn2
  subst h92
  subst hf2
  have hg : elapsedGate (t % ULONG_MOD) TURBO_TEXT_DISPLAY_TIME_IN_MILLIS t
      = false := by
    simp only [elapsedGate, decide_eq_false_iff_not, not_lt]
    unfold ULONG_MOD TURBO_TEXT_DISPLAY_TIME_IN_MILLIS at *
    omega
  simp [machineTick, applyUpEvent, applyDownEvent, applyOnoffEvent,
    process_speed_up_click, speed_up_fan_speed, process_turbo_request,
    SYSTEM_ON, SYSTEM_OFF, TURBO_REQUESTED, MAX_PWM_SPEED, MAX_FAN_SPEED,
    OFF_FAN_SPEED, MIN_FAN_SPEED, INCREMENT_FAN_SPEED, hg]

/-- Witness for the C4 theorem at a concrete state and tick time. -/
theorem c4_speed9_turbo_witness :
    (machineTick (⟨SYSTEM_ON, MAX_PWM_SPEED, some 9, false, 0⟩ : SysState)
        ⟨some BEvent.click, none, none, 1000⟩).user_fan_speed = MAX_PWM_SPEED ∧
      (machineTick (⟨SYSTEM_ON, MAX_PWM_SPEED, some 9, false, 0⟩ : SysState)
        ⟨some BEvent.click, none, none, 1000⟩).onoff = TURBO_REQUESTED ∧
      (machineTick (⟨SYSTEM_ON, MAX_PWM_SPEED, some 9, false, 0⟩ : SysState)
        ⟨some BEvent.click, none, none, 1000⟩).turbo_requested_by_user = false :=
  c4_speed9_turbo ⟨SYSTEM_ON, MAX_PWM_SPEED, some 9, false, 0⟩ 1000
    (by decide) (by decide) (by decide) (by decide)

/-! ### Claim C5 -/

/-- Claim C5 (confirmed, absent clock wraparound): in `TURBO_REQUESTED`
with no further input in the tick, the machine returns to `SYSTEM_ON`
exactly when the tick time strictly exceeds the recorded prompt-start
mark plus `TURBO_TEXT_DISPLAY_TIME_IN_MILLIS`, or the fan speed level
equals `MAX_FAN_SPEED = 10`; otherwise it stays in `TURBO_REQUESTED`,
and in either case the exit leaves the fan speed level unchanged. -/
theorem c5_turbo_prompt (s : SysState) (t : Nat)
    (hT : s.onoff = TURBO_REQUESTED) (hf : s.turbo_requested_by_user = false)
    (h1 : s.turbo_timer + TURBO_TEXT_DISPLAY_TIME_IN_MILLIS < ULONG_MOD)
    (h2 : t < ULONG_MOD) :
    ((machineTick s ⟨none, none, none, t⟩).onoff = SYSTEM_ON ↔
        (s.turbo_timer + TURBO_TEXT_DISPLAY_TIME_IN_MILLIS < t ∨
          s.user_fan_speed = MAX_FAN_SPEED)) ∧
      ((machineTick s ⟨none, none, none, t⟩).onoff = SYSTEM_ON ∨
        (machineTick s ⟨none, none, none, t⟩).onoff = TURBO_REQUESTED) ∧
      (machineTick s ⟨none, none, none, t⟩).user_fan_speed
        = s.user_fan_speed := by
  obtain ⟨a, b, c, d, e⟩ := s
  have hT2 : a = TURBO_REQUESTED := hT
  have hf2 : d = false := hf
  subst hT2
  subst hf2
  have h1b : e + TURBO_TEXT_DISPLAY_TIME_IN_MILLIS < ULONG_MOD := h1
  have hgiff : elapsedGate e TURBO_TEXT_DISPLAY_TIME_IN_MILLIS t = true ↔
      e + TURBO_TEXT_DISPLAY_TIME_IN_MILLIS < t := by
    simp only [elapsedGate, decide_eq_true_eq,
      Nat.mod_eq_of_lt h1b, Nat.mod_eq_of_lt h2]
  cases hg : elapsedGate e TURBO_TEXT_DISPLAY_TIME_IN_MILLIS t with
  | false =>
      have hnlt : ¬ e + TURBO_TEXT_DISPLAY_TIME_IN_MILLIS < t := by
        rw [← hgiff, hg]
        simp
      by_cases hsp : b = MAX_FAN_SPEED
      · simp [machineTick, applyUpEvent, applyDownEvent, applyOnoffEvent,
          process_turbo_request, TURBO_REQUESTED, SYSTEM_ON, hg, hsp, hnlt]
      · simp [machineTick, applyUpEvent, applyDownEvent, applyOnoffEvent,
          process_turbo_request, TURBO_REQUESTED, SYSTEM_ON, hg, hsp, hnlt]
  | true =>
      have hlt : e + TURBO_TEXT_DISPLAY_TIME_IN_MILLIS < t := hgiff.1 hg
      simp [machineTick, applyUpEvent, applyDownEvent, applyOnoffEvent,
        process_turbo_request, TURBO_REQUESTED, SYSTEM_ON, hg, hlt]

/-- Witness for the C5 theorem: prompt started at 1000 ms, tick at
1501 ms (just past the 500 ms prompt window) exits to On with the speed
unchanged. -/
theorem c5_turbo_prompt_witness :
    ((machineTick (⟨TURBO_REQUESTED, 9, some 9, false, 1000⟩ : SysState)
          ⟨none, none, none, 1501⟩).onoff = SYSTEM_ON ↔
        (1000 + TURBO_TEXT_DISPLAY_TIME_IN_MILLIS < 1501 ∨
          (9 : Nat) = MAX_FAN_SPEED)) ∧
      ((machineTick (⟨TURBO_REQUESTED, 9, some 9, false, 1000⟩ : SysState)
          ⟨none, none, none, 1501⟩).onoff = SYSTEM_ON ∨
        (machineTick (⟨TURBO_REQUESTED, 9, some 9, false, 1000⟩ : SysState)
          ⟨none, none, none, 1501⟩).onoff = TURBO_REQUESTED) ∧
      (machineTick (⟨TURBO_REQUESTED, 9, some 9, false, 1000⟩ : SysState)
          ⟨none, none, none, 1501⟩).user_fan_speed = 9 :=
  c5_turbo_prompt ⟨TURBO_REQUESTED, 9, some 9, false, 1000⟩ 1501
    (by decide) (by decide) (by decide) (by decide)
